import Mathlib

/-!
Verification of the OBD2 decode layer of Simple_OBD2_for_AlfaRomeoGiulia.

Shallow embedding of `src/OBD2Calculations.h`.  The C++ file holds eight
decoder functions `CalcEngineRPM`, `CalcGear`, `CalcEngineOilTemp`,
`CalcBatteryIBS`, `CalcBattery`, `CalcAtmosphericPressure`,
`CalcBoostPressure`, `CalcExternalTemp`, each taking `const uint8_t* pData`,
reading bytes 4 and/or 5, storing the decoded value in a file-scope global
(`g_EngineRPM`, ...) and returning it as `int32_t`; and matching `Print`
functions that format the cached globals with `Serial.printf`.

Modelling decisions:
* a frame buffer is a `List Nat`; the predicate `IsByteFrame` says that every
  element fits in a `uint8_t` (is `< 256`);
* the eight globals are gathered into an explicit state record `OBD2State`
  which every decoder threads (in C they are static globals);
* a buffer access `pData[i]` is `byteAt`, which is `none` when the index is
  outside the buffer: in C that access would be an out-of-bounds read
  (undefined behavior), so each decoder returns `Option (OBD2State × Int)`
  and is `none` exactly when it would have read past the end of the buffer;
* `int32_t` values are `Int` (no formula here can leave `[-40, 65535]`, far
  from the 32-bit range, so wrap-around never occurs and is not modelled);
* the single `float` global `g_Battery` is a `Rat`.  The stored value
  `B / 10.0f` is modelled as the exact rational `B / 10`; for `B ≤ 255` the
  f32 rounding error of `B / 10.0f` is below `2^-17` and no property proved
  below observes it (the concrete inputs used are exactly representable).
-/

/-- A frame buffer whose entries all fit in a `uint8_t`. -/
def IsByteFrame (frame : List Nat) : Prop := ∀ b ∈ frame, b < 256

instance : DecidablePred IsByteFrame := fun frame =>
  List.decidableBAll (fun b => b < 256) frame

/-- Reading `pData[i]` on a `const uint8_t*` buffer: `none` when the access is past
the end of the buffer (an out-of-bounds read in the C source); the `% 256`
records that a successful read yields a `uint8_t`. -/
def byteAt (pData : List Nat) (i : Nat) : Option Nat :=
  (pData.get? i).map (fun b => b % 256)

/-- The eight file-scope caching globals of `OBD2Calculations.h`, gathered
into one record.  All are `int32_t` initialised to `0` except `g_Battery`,
which is a `float` (`// Volts`). -/
structure OBD2State where
  g_EngineRPM : Int := 0
  g_Gear : Int := 0
  g_EngineOilTemp : Int := 0
  g_BatteryIBS : Int := 0
  g_Battery : Rat := 0
  g_AtmosphericPressure : Int := 0
  g_BoostPressure : Int := 0
  g_ExternalTemp : Int := 0
deriving DecidableEq

/-- The initial state: every global zero, as at program start. -/
def initState : OBD2State := {}

/-- Model of `CalcEngineRPM`: reads `A = pData[4]`, `B = pData[5]`, stores
`((int32_t(A) * 256) + int32_t(B)) / 4` in `g_EngineRPM` and returns it.
`A * 256 + B ≤ 65535`, so the `int32_t` arithmetic never overflows, and the
operands are nonnegative, so C's truncating division is `Nat` division. -/
def CalcEngineRPM (s : OBD2State) (pData : List Nat) : Option (OBD2State × Int) :=
  (byteAt pData 4).bind fun A =>
  (byteAt pData 5).bind fun B =>
    let v : Int := (((A * 256 + B) / 4 : Nat) : Int)
    some ({ s with g_EngineRPM := v }, v)

/-- Model of `CalcGear`: reads `A = pData[4]`, sets `g_Gear = A`, then replaces it
by `-1` when it equals the reverse sentinel `0x10`, and returns it. -/
def CalcGear (s : OBD2State) (pData : List Nat) : Option (OBD2State × Int) :=
  (byteAt pData 4).bind fun A =>
    let g : Int := if (A : Int) = 0x10 then -1 else (A : Int)
    some ({ s with g_Gear := g }, g)

/-- Model of `CalcEngineOilTemp`: reads `B = pData[5]`, stores the raw byte in
`g_EngineOilTemp` (Celsius) and returns it. -/
def CalcEngineOilTemp (s : OBD2State) (pData : List Nat) : Option (OBD2State × Int) :=
  (byteAt pData 5).bind fun B =>
    let v : Int := (B : Int)
    some ({ s with g_EngineOilTemp := v }, v)

/-- Model of `CalcBatteryIBS`: reads `A = pData[4]`, stores the raw byte in
`g_BatteryIBS` (percent) and returns it. -/
def CalcBatteryIBS (s : OBD2State) (pData : List Nat) : Option (OBD2State × Int) :=
  (byteAt pData 4).bind fun A =>
    let v : Int := (A : Int)
    some ({ s with g_BatteryIBS := v }, v)

/-- Model of `CalcBattery`: reads `B = pData[5]`, stores `B / 10.0f` in the `float`
global `g_Battery`, and `return g_Battery;` — but the function's declared
return type is `int32_t`, so the returned value is the float converted to
`int32_t`, which truncates toward zero; the value is nonnegative, so the
truncation is `Int.floor`. -/
def CalcBattery (s : OBD2State) (pData : List Nat) : Option (OBD2State × Int) :=
  (byteAt pData 5).bind fun B =>
    let volts : Rat := (B : Rat) / 10
    some ({ s with g_Battery := volts }, Int.floor volts)

/-- Model of `CalcAtmosphericPressure`: reads `A = pData[4]`, `B = pData[5]`, stores
`A * 256 + B` (mbar) in `g_AtmosphericPressure` and returns it. -/
def CalcAtmosphericPressure (s : OBD2State) (pData : List Nat) : Option (OBD2State × Int) :=
  (byteAt pData 4).bind fun A =>
  (byteAt pData 5).bind fun B =>
    let v : Int := ((A * 256 + B : Nat) : Int)
    some ({ s with g_AtmosphericPressure := v }, v)

/-- Model of `CalcBoostPressure`: reads `A = pData[4]`, `B = pData[5]`, stores
`A * 256 + B` (mbar) in `g_BoostPressure` and returns it. -/
def CalcBoostPressure (s : OBD2State) (pData : List Nat) : Option (OBD2State × Int) :=
  (byteAt pData 4).bind fun A =>
  (byteAt pData 5).bind fun B =>
    let v : Int := ((A * 256 + B : Nat) : Int)
    some ({ s with g_BoostPressure := v }, v)

/-- Model of `CalcExternalTemp`: reads `A = pData[4]`, stores `(A / 2) - 40`
(Celsius) in `g_ExternalTemp` and returns it.  `A` is nonnegative, so the
truncating division `A / 2` is `Nat` division; the subtraction is in `Int`
since the result may be negative. -/
def CalcExternalTemp (s : OBD2State) (pData : List Nat) : Option (OBD2State × Int) :=
  (byteAt pData 4).bind fun A =>
    let v : Int := ((A / 2 : Nat) : Int) - 40
    some ({ s with g_ExternalTemp := v }, v)

/-- The PID selector: which of the eight decoders is invoked. -/
inductive PID where
  | rpm | gear | oilTemp | batteryIBS | battery | atmosphericPressure
  | boostPressure | externalTemp
deriving DecidableEq

/-- The decoder registry: dispatch from a `PID` selector to its decoder. -/
def decodePID : PID → OBD2State → List Nat → Option (OBD2State × Int)
  | .rpm => CalcEngineRPM
  | .gear => CalcGear
  | .oilTemp => CalcEngineOilTemp
  | .batteryIBS => CalcBatteryIBS
  | .battery => CalcBattery
  | .atmosphericPressure => CalcAtmosphericPressure
  | .boostPressure => CalcBoostPressure
  | .externalTemp => CalcExternalTemp

/-- The Fahrenheit value computed by `PrintEngineOilTemp` and
`PrintExternalTemp`:
`int32_t Farh = (float(c) * 9.0f / 5.0f) + 32.0f + 0.5f;`.
The float expression computes `c * 9 / 5 + 32.5 = (18 * c + 325) / 10`; for
`-40 ≤ c ≤ 255` the accumulated f32 rounding error is below `10^-4` while
the exact value `(18 * c + 325) / 10` is always at distance `≥ 1/10` from
any integer, so the `int32_t` conversion of the float equals the exact
rational truncated toward zero, i.e. `Int.tdiv (18 * c + 325) 10`
(float-to-int conversion in C truncates toward zero). -/
def FahrenheitDisplay (c : Int) : Int := Int.tdiv (18 * c + 325) 10

/-- Model of `PrintEngineOilTemp`: the pair of integers formatted by
`Serial.printf("Engine Oil Temperature = %d C (%d F)\n", g_EngineOilTemp, Farh)`. -/
def PrintEngineOilTemp (s : OBD2State) : Int × Int :=
  (s.g_EngineOilTemp, FahrenheitDisplay s.g_EngineOilTemp)

/-- Model of `PrintExternalTemp`: the pair of integers formatted by
`Serial.printf("External Temperature = %d C (%d F)\n", g_ExternalTemp, Farh)`. -/
def PrintExternalTemp (s : OBD2State) : Int × Int :=
  (s.g_ExternalTemp, FahrenheitDisplay s.g_ExternalTemp)

/-- Modelled from the spec: the spec's Fahrenheit policy
`f = round(c * 9/5 + 32)` as "round-half-up on the `+0.5` floor-truncation
idiom", i.e. `floor(c * 9/5 + 32 + 0.5) = floor((18 * c + 325) / 10)`,
which is the flooring division `Int.fdiv`. -/
def roundHalfUpFahrenheit (c : Int) : Int := Int.fdiv (18 * c + 325) 10

/-! ## Helper lemmas about buffer access -/

/-- A successful in-range read of a byte frame is `getD` (no masking). -/
theorem byteAt_eq_getD (frame : List Nat) (i : Nat) (hb : IsByteFrame frame)
    (hi : i < frame.length) : byteAt frame i = some (frame.getD i 0) := by
  rcases hg : frame.get? i with _ | b
  · rw [List.get?_eq_none] at hg
    omega
  · have hlt : b < 256 := hb b (List.get?_mem hg)
    have hd : frame.getD i 0 = b := by
      rw [List.getD_eq_getD_get?, hg, Option.getD_some]
    unfold byteAt
    rw [hg, hd, Option.map_some', Nat.mod_eq_of_lt hlt]

/-- A read succeeds exactly when the index is inside the buffer. -/
theorem byteAt_isSome (frame : List Nat) (i : Nat) :
    (byteAt frame i).isSome ↔ i < frame.length := by
  constructor
  · intro h
    by_contra hc
    rw [byteAt, List.get?_eq_none.mpr (by omega)] at h
    simp at h
  · intro h
    rcases hg : frame.get? i with _ | b
    · rw [List.get?_eq_none] at hg
      omega
    · unfold byteAt
      rw [hg]
      rfl

/-- An out-of-range read fails. -/
theorem byteAt_eq_none (frame : List Nat) (i : Nat) (h : frame.length ≤ i) :
    byteAt frame i = none := by
  rw [byteAt, List.get?_eq_none.mpr h]
  rfl

/-! ## The claims -/

/-- Claim C1 (amended): for every byte frame of length at least 6,
`CalcEngineRPM` returns exactly `(frame[4] * 256 + frame[5]) / 4` with
truncating integer division; for `frame[4] = 0x1A` and `frame[5] = 0xF4`
this value is `1725` (`= 6900 / 4`), not `1718` as the spec's example
states. -/
theorem CalcEngineRPM_formula (s : OBD2State) (frame : List Nat)
    (hlen : 6 ≤ frame.length) (hb : IsByteFrame frame) :
    CalcEngineRPM s frame =
      some ({ s with g_EngineRPM := (((frame.getD 4 0 * 256 + frame.getD 5 0) / 4 : Nat) : Int) },
        (((frame.getD 4 0 * 256 + frame.getD 5 0) / 4 : Nat) : Int)) := by
  unfold CalcEngineRPM
  rw [byteAt_eq_getD frame 4 hb (by omega), byteAt_eq_getD frame 5 hb (by omega)]
  rfl

/-- Witness for C1 at the spec's end-to-end example frame
`[0, 0, 0, 0, 0x1A, 0xF4]`: the decoded RPM is `1725`. -/
theorem CalcEngineRPM_formula_witness :
    6 ≤ ([0, 0, 0, 0, 0x1A, 0xF4] : List Nat).length ∧
    CalcEngineRPM initState [0, 0, 0, 0, 0x1A, 0xF4] =
      some ({ initState with g_EngineRPM := 1725 }, 1725) := by
  refine ⟨by decide, ?_⟩
  rw [CalcEngineRPM_formula initState _ (by decide) (by decide)]
  decide

/-- Counterexample to C1 as stated: on the frame with `frame[4] = 0x1A`,
`frame[5] = 0xF4` the code returns `1725 = (26 * 256 + 244) / 4 = 6900 / 4`,
and `1725 ≠ 1718`. -/
theorem CalcEngineRPM_spec_example_value :
    CalcEngineRPM initState [0, 0, 0, 0, 0x1A, 0xF4] =
      some ({ initState with g_EngineRPM := 1725 }, 1725) ∧ (1725 : Int) ≠ 1718 := by
  constructor
  · decide
  · decide

/-- An in-range entry of a byte frame is a byte. -/
theorem getD_lt_256 (frame : List Nat) (i : Nat) (hb : IsByteFrame frame)
    (hi : i < frame.length) : frame.getD i 0 < 256 := by
  rw [List.getD_eq_getElem frame 0 hi]
  exact hb _ (List.getElem_mem hi)

/-! ## Symbolic one-step evaluation of each decoder (shared helpers) -/

theorem CalcEngineRPM_run (s : OBD2State) (frame : List Nat)
    (hlen : 6 ≤ frame.length) (hb : IsByteFrame frame) :
    CalcEngineRPM s frame =
      some ({ s with g_EngineRPM := (((frame.getD 4 0 * 256 + frame.getD 5 0) / 4 : Nat) : Int) },
        (((frame.getD 4 0 * 256 + frame.getD 5 0) / 4 : Nat) : Int)) := by
  unfold CalcEngineRPM
  rw [byteAt_eq_getD frame 4 hb (by omega), byteAt_eq_getD frame 5 hb (by omega)]
  rfl

theorem CalcGear_run (s : OBD2State) (frame : List Nat)
    (hlen : 5 ≤ frame.length) (hb : IsByteFrame frame) :
    CalcGear s frame =
      some ({ s with g_Gear :=
          if (frame.getD 4 0 : Int) = 0x10 then -1 else (frame.getD 4 0 : Int) },
        if (frame.getD 4 0 : Int) = 0x10 then -1 else (frame.getD 4 0 : Int)) := by
  unfold CalcGear
  rw [byteAt_eq_getD frame 4 hb (by omega)]
  rfl

theorem CalcEngineOilTemp_run (s : OBD2State) (frame : List Nat)
    (hlen : 6 ≤ frame.length) (hb : IsByteFrame frame) :
    CalcEngineOilTemp s frame =
      some ({ s with g_EngineOilTemp := ((frame.getD 5 0 : Nat) : Int) },
        ((frame.getD 5 0 : Nat) : Int)) := by
  unfold CalcEngineOilTemp
  rw [byteAt_eq_getD frame 5 hb (by omega)]
  rfl

theorem CalcBatteryIBS_run (s : OBD2State) (frame : List Nat)
    (hlen : 5 ≤ frame.length) (hb : IsByteFrame frame) :
    CalcBatteryIBS s frame =
      some ({ s with g_BatteryIBS := ((frame.getD 4 0 : Nat) : Int) },
        ((frame.getD 4 0 : Nat) : Int)) := by
  unfold CalcBatteryIBS
  rw [byteAt_eq_getD frame 4 hb (by omega)]
  rfl

theorem CalcBattery_run (s : OBD2State) (frame : List Nat)
    (hlen : 6 ≤ frame.length) (hb : IsByteFrame frame) :
    CalcBattery s frame =
      some ({ s with g_Battery := (frame.getD 5 0 : Rat) / 10 },
        Int.floor ((frame.getD 5 0 : Rat) / 10)) := by
  unfold CalcBattery
  rw [byteAt_eq_getD frame 5 hb (by omega)]
  rfl

theorem CalcAtmosphericPressure_run (s : OBD2State) (frame : List Nat)
    (hlen : 6 ≤ frame.length) (hb : IsByteFrame frame) :
    CalcAtmosphericPressure s frame =
      some ({ s with g_AtmosphericPressure := ((frame.getD 4 0 * 256 + frame.getD 5 0 : Nat) : Int) },
        ((frame.getD 4 0 * 256 + frame.getD 5 0 : Nat) : Int)) := by
  unfold CalcAtmosphericPressure
  rw [byteAt_eq_getD frame 4 hb (by omega), byteAt_eq_getD frame 5 hb (by omega)]
  rfl

theorem CalcBoostPressure_run (s : OBD2State) (frame : List Nat)
    (hlen : 6 ≤ frame.length) (hb : IsByteFrame frame) :
    CalcBoostPressure s frame =
      some ({ s with g_BoostPressure := ((frame.getD 4 0 * 256 + frame.getD 5 0 : Nat) : Int) },
        ((frame.getD 4 0 * 256 + frame.getD 5 0 : Nat) : Int)) := by
  unfold CalcBoostPressure
  rw [byteAt_eq_getD frame 4 hb (by omega), byteAt_eq_getD frame 5 hb (by omega)]
  rfl

theorem CalcExternalTemp_run (s : OBD2State) (frame : List Nat)
    (hlen : 5 ≤ frame.length) (hb : IsByteFrame frame) :
    CalcExternalTemp s frame =
      some ({ s with g_ExternalTemp := ((frame.getD 4 0 / 2 : Nat) : Int) - 40 },
        ((frame.getD 4 0 / 2 : Nat) : Int) - 40) := by
  unfold CalcExternalTemp
  rw [byteAt_eq_getD frame 4 hb (by omega)]
  rfl

/-- The gear value written and returned by `CalcGear`, characterised by
cases on the raw byte `A`. -/
theorem gearValue_cases (A : Nat) :
    ((if (A : Int) = 0x10 then (-1 : Int) else (A : Int)) = -1 ↔ A = 0x10) ∧
    ((if (A : Int) = 0x10 then (-1 : Int) else (A : Int)) = 0 ↔ A = 0) ∧
    (A ≠ 0x10 → (if (A : Int) = 0x10 then (-1 : Int) else (A : Int)) = (A : Int)) := by
  by_cases h16 : (A : Int) = 0x10
  · refine ⟨?_, ?_, ?_⟩ <;> omega
  · refine ⟨?_, ?_, ?_⟩ <;> omega

/-- Claim C3: for every byte frame of length at least 6, the value decoded
by `CalcGear` depends only on `A = frame[4]` and encodes: Reverse (the
source's `-1`) exactly when `A = 0x10`, Neutral (`0`) exactly when `A = 0`,
and the forward gear number `A` for every other byte value. -/
theorem CalcGear_encoding (s : OBD2State) (frame : List Nat)
    (hlen : 6 ≤ frame.length) (hb : IsByteFrame frame) :
    ∃ s₂ r, CalcGear s frame = some (s₂, r) ∧
      (r = -1 ↔ frame.getD 4 0 = 0x10) ∧
      (r = 0 ↔ frame.getD 4 0 = 0) ∧
      (frame.getD 4 0 ≠ 0x10 → r = ((frame.getD 4 0 : Nat) : Int)) ∧
      (∀ (s₃ : OBD2State) (frame₂ : List Nat), 6 ≤ frame₂.length →
        IsByteFrame frame₂ → frame₂.getD 4 0 = frame.getD 4 0 →
        ∃ s₄, CalcGear s₃ frame₂ = some (s₄, r)) := by
  refine ⟨_, _, CalcGear_run s frame (by omega) hb,
    (gearValue_cases (frame.getD 4 0)).1, (gearValue_cases (frame.getD 4 0)).2.1,
    (gearValue_cases (frame.getD 4 0)).2.2, ?_⟩
  intro s₃ frame₂ h₂len h₂b h₂eq
  refine ⟨{ s₃ with g_Gear :=
    if (frame.getD 4 0 : Int) = 0x10 then -1 else (frame.getD 4 0 : Int) }, ?_⟩
  rw [CalcGear_run s₃ frame₂ (by omega) h₂b, h₂eq]

/-- Witness for C3 on the three spec examples: `A = 0x10` decodes to
Reverse (`-1`), `A = 0` to Neutral (`0`), `A = 5` to Forward gear `5`. -/
theorem CalcGear_encoding_witness :
    (∃ s₂ r, CalcGear initState [0, 0, 0, 0, 0x10, 0] = some (s₂, r) ∧ r = -1) ∧
    (∃ s₂ r, CalcGear initState [0, 0, 0, 0, 0, 0] = some (s₂, r) ∧ r = 0) ∧
    (∃ s₂ r, CalcGear initState [0, 0, 0, 0, 5, 0] = some (s₂, r) ∧ r = 5) := by
  refine ⟨?_, ?_, ?_⟩
  · obtain ⟨s₂, r, h, h1, -, -, -⟩ :=
      CalcGear_encoding initState [0, 0, 0, 0, 0x10, 0] (by decide) (by decide)
    exact ⟨s₂, r, h, h1.mpr (by decide)⟩
  · obtain ⟨s₂, r, h, -, h0, -, -⟩ :=
      CalcGear_encoding initState [0, 0, 0, 0, 0, 0] (by decide) (by decide)
    exact ⟨s₂, r, h, h0.mpr (by decide)⟩
  · obtain ⟨s₂, r, h, -, -, hfwd, -⟩ :=
      CalcGear_encoding initState [0, 0, 0, 0, 5, 0] (by decide) (by decide)
    exact ⟨s₂, r, h, by rw [hfwd (by decide)]; rfl⟩

/-- Claim C5: for every byte frame of length at least 6, `CalcExternalTemp`
returns `(frame[4] / 2) - 40`: truncating division of `A` by `2` first,
then subtraction of `40`, exactly in that order. -/
theorem CalcExternalTemp_formula (s : OBD2State) (frame : List Nat)
    (hlen : 6 ≤ frame.length) (hb : IsByteFrame frame) :
    CalcExternalTemp s frame =
      some ({ s with g_ExternalTemp := ((frame.getD 4 0 / 2 : Nat) : Int) - 40 },
        ((frame.getD 4 0 / 2 : Nat) : Int) - 40) :=
  CalcExternalTemp_run s frame (by omega) hb

/-- Witness for C5 on the two spec examples: `A = 100` gives `10` and
`A = 26` gives `-27`. -/
theorem CalcExternalTemp_formula_witness :
    CalcExternalTemp initState [0, 0, 0, 0, 100, 0] =
      some ({ initState with g_ExternalTemp := 10 }, 10) ∧
    CalcExternalTemp initState [0, 0, 0, 0, 26, 0] =
      some ({ initState with g_ExternalTemp := -27 }, -27) := by
  constructor
  · rw [CalcExternalTemp_formula initState _ (by decide) (by decide)]
    decide
  · rw [CalcExternalTemp_formula initState _ (by decide) (by decide)]
    decide

/-- Claim C6: for every byte frame of length at least 6,
`CalcAtmosphericPressure` and `CalcBoostPressure` both return the same
numeric value `frame[4] * 256 + frame[5]`; they differ only in which cached
global they update. -/
theorem Pressure_decoders_agree (s : OBD2State) (frame : List Nat)
    (hlen : 6 ≤ frame.length) (hb : IsByteFrame frame) :
    CalcAtmosphericPressure s frame =
      some ({ s with g_AtmosphericPressure := ((frame.getD 4 0 * 256 + frame.getD 5 0 : Nat) : Int) },
        ((frame.getD 4 0 * 256 + frame.getD 5 0 : Nat) : Int)) ∧
    CalcBoostPressure s frame =
      some ({ s with g_BoostPressure := ((frame.getD 4 0 * 256 + frame.getD 5 0 : Nat) : Int) },
        ((frame.getD 4 0 * 256 + frame.getD 5 0 : Nat) : Int)) ∧
    (CalcAtmosphericPressure s frame).map (fun p => p.2) =
      (CalcBoostPressure s frame).map (fun p => p.2) := by
  refine ⟨CalcAtmosphericPressure_run s frame hlen hb,
    CalcBoostPressure_run s frame hlen hb, ?_⟩
  rw [CalcAtmosphericPressure_run s frame hlen hb, CalcBoostPressure_run s frame hlen hb]
  rfl

/-- Witness for C6 at the spec's example frame (`A = 0x1A`, `B = 0xF4`):
both pressure decoders yield `6900` mbar. -/
theorem Pressure_decoders_agree_witness :
    CalcAtmosphericPressure initState [0, 0, 0, 0, 0x1A, 0xF4] =
      some ({ initState with g_AtmosphericPressure := 6900 }, 6900) ∧
    CalcBoostPressure initState [0, 0, 0, 0, 0x1A, 0xF4] =
      some ({ initState with g_BoostPressure := 6900 }, 6900) := by
  obtain ⟨h1, h2, -⟩ :=
    Pressure_decoders_agree initState [0, 0, 0, 0, 0x1A, 0xF4] (by decide) (by decide)
  constructor
  · rw [h1]
    decide
  · rw [h2]
    decide

/-- Claim C7: for every byte frame of length at least 6,
`CalcEngineOilTemp` returns the raw byte `frame[5]` unchanged — no `-40`
offset — so the result lies in `[0, 255]` and is never negative. -/
theorem CalcEngineOilTemp_raw (s : OBD2State) (frame : List Nat)
    (hlen : 6 ≤ frame.length) (hb : IsByteFrame frame) :
    CalcEngineOilTemp s frame =
      some ({ s with g_EngineOilTemp := ((frame.getD 5 0 : Nat) : Int) },
        ((frame.getD 5 0 : Nat) : Int)) ∧
    0 ≤ ((frame.getD 5 0 : Nat) : Int) ∧ ((frame.getD 5 0 : Nat) : Int) ≤ 255 := by
  have hbyte : frame.getD 5 0 < 256 := getD_lt_256 frame 5 hb (by omega)
  exact ⟨CalcEngineOilTemp_run s frame hlen hb, by omega, by omega⟩

/-- Witness for C7 at `B = 0xF4`: the oil temperature reads `244` (raw
byte, no offset). -/
theorem CalcEngineOilTemp_raw_witness :
    CalcEngineOilTemp initState [0, 0, 0, 0, 0x1A, 0xF4] =
      some ({ initState with g_EngineOilTemp := 244 }, 244) ∧
    (0 : Int) ≤ 244 ∧ (244 : Int) ≤ 255 := by
  obtain ⟨h, -, -⟩ :=
    CalcEngineOilTemp_raw initState [0, 0, 0, 0, 0x1A, 0xF4] (by decide) (by decide)
  refine ⟨?_, by decide, by decide⟩
  rw [h]
  decide

/-- Claim C2 (amended): no decoder checks the frame length or produces a
typed error; each reads only bytes 4 and/or 5.  On a frame shorter than 6
bytes, the five decoders that read byte 5 (`CalcEngineRPM`,
`CalcEngineOilTemp`, `CalcBattery`, `CalcAtmosphericPressure`,
`CalcBoostPressure`) attempt an out-of-bounds read (in the embedding they
fail with `none`), while the three decoders that read only byte 4
(`CalcGear`, `CalcBatteryIBS`, `CalcExternalTemp`) fail exactly when the
frame is shorter than 5 bytes and decode successfully on a 5-byte frame. -/
theorem ShortFrame_behavior (s : OBD2State) (frame : List Nat)
    (hlen : frame.length < 6) :
    CalcEngineRPM s frame = none ∧
    CalcEngineOilTemp s frame = none ∧
    CalcBattery s frame = none ∧
    CalcAtmosphericPressure s frame = none ∧
    CalcBoostPressure s frame = none ∧
    (frame.length ≤ 4 →
      CalcGear s frame = none ∧ CalcBatteryIBS s frame = none ∧
      CalcExternalTemp s frame = none) ∧
    (5 ≤ frame.length →
      (∃ p, CalcGear s frame = some p) ∧ (∃ p, CalcBatteryIBS s frame = some p) ∧
      (∃ p, CalcExternalTemp s frame = some p)) := by
  have h5 : byteAt frame 5 = none := byteAt_eq_none frame 5 (by omega)
  refine ⟨?_, ?_, ?_, ?_, ?_, ?_, ?_⟩
  · unfold CalcEngineRPM
    rcases h4 : byteAt frame 4 with _ | A <;> simp [h5]
  · unfold CalcEngineOilTemp
    rw [h5]
    rfl
  · unfold CalcBattery
    rw [h5]
    rfl
  · unfold CalcAtmosphericPressure
    rcases h4 : byteAt frame 4 with _ | A <;> simp [h5]
  · unfold CalcBoostPressure
    rcases h4 : byteAt frame 4 with _ | A <;> simp [h5]
  · intro h4len
    have h4 : byteAt frame 4 = none := byteAt_eq_none frame 4 h4len
    refine ⟨?_, ?_, ?_⟩
    · unfold CalcGear
      rw [h4]
      rfl
    · unfold CalcBatteryIBS
      rw [h4]
      rfl
    · unfold CalcExternalTemp
      rw [h4]
      rfl
  · intro h5len
    obtain ⟨A, hA⟩ :=
      Option.isSome_iff_exists.mp ((byteAt_isSome frame 4).mpr (by omega))
    refine ⟨⟨({ s with g_Gear := if (A : Int) = 0x10 then -1 else (A : Int) },
        if (A : Int) = 0x10 then -1 else (A : Int)), ?_⟩,
      ⟨({ s with g_BatteryIBS := (A : Int) }, (A : Int)), ?_⟩,
      ⟨({ s with g_ExternalTemp := ((A / 2 : Nat) : Int) - 40 },
        ((A / 2 : Nat) : Int) - 40), ?_⟩⟩
    · unfold CalcGear
      rw [hA]
      rfl
    · unfold CalcBatteryIBS
      rw [hA]
      rfl
    · unfold CalcExternalTemp
      rw [hA]
      rfl

/-- Witness for C2 (amended) on the concrete 5-byte frame
`[0, 0, 0, 0, 16]`: the byte-5 readers fail, the byte-4-only readers
succeed. -/
theorem ShortFrame_behavior_witness :
    ([0, 0, 0, 0, 16] : List Nat).length < 6 ∧
    CalcEngineRPM initState [0, 0, 0, 0, 16] = none ∧
    (∃ p, CalcGear initState [0, 0, 0, 0, 16] = some p) := by
  have h := ShortFrame_behavior initState [0, 0, 0, 0, 16] (by decide)
  exact ⟨by decide, h.1, (h.2.2.2.2.2.2 (by decide)).1⟩

/-- Counterexample to C2 as stated: on the 5-byte frame `[0, 0, 0, 0, 0x10]`
`CalcGear` does not fail at all — it happily decodes Reverse (`-1`) — while
`CalcEngineRPM` on the same frame attempts to read byte 5, past the end of
the buffer. -/
theorem ShortFrame_gear_decodes :
    CalcGear initState [0, 0, 0, 0, 0x10] =
      some ({ initState with g_Gear := -1 }, -1) ∧
    CalcEngineRPM initState [0, 0, 0, 0, 0x10] = none := by
  constructor
  · decide
  · decide

/-- Claim C4 (code bug made precise): for the frame with `frame[5] = 125`
the code stores the f32 value `12.5` in `g_Battery` — which is what
`PrintBattery` displays — but `CalcBattery`'s declared `int32_t` return
type truncates the returned value to `12`, which is not `12.5`. -/
theorem CalcBattery_truncated_return :
    CalcBattery initState [0, 0, 0, 0, 0, 125] =
      some ({ initState with g_Battery := 25 / 2 }, 12) ∧
    ¬ ((12 : Rat) = 25 / 2) := by
  constructor
  · rw [CalcBattery_run initState [0, 0, 0, 0, 0, 125] (by decide) (by decide)]
    simp only [List.getD_cons_succ, List.getD_cons_zero]
    norm_num
  · norm_num

/-- Claim C8: decoding is idempotent.  If a decoder invoked from any cached
state `s` yields state `s₂` and value `r`, invoking the same decoder again
on the same frame (now from state `s₂`) yields exactly the same value and
leaves the state at `s₂`: the result depends only on the frame, never on
the globals left by earlier calls. -/
theorem decodePID_idempotent (p : PID) (s : OBD2State) (frame : List Nat)
    (s₂ : OBD2State) (r : Int) (h : decodePID p s frame = some (s₂, r)) :
    decodePID p s₂ frame = some (s₂, r) := by
  cases p
  case rpm =>
    simp only [decodePID] at h ⊢
    unfold CalcEngineRPM at h ⊢
    rcases hA : byteAt frame 4 with _ | A
    · rw [hA] at h
      simp at h
    · rw [hA] at h
      rcases hB : byteAt frame 5 with _ | B
      · rw [hB] at h
        simp at h
      · rw [hB] at h
        simp only [Option.some_bind] at h ⊢
        injection h with h1
        injection h1 with hs hr
        subst hs
        subst hr
        rfl
  case gear =>
    simp only [decodePID] at h ⊢
    unfold CalcGear at h ⊢
    rcases hA : byteAt frame 4 with _ | A
    · rw [hA] at h
      simp at h
    · rw [hA] at h
      simp only [Option.some_bind] at h ⊢
      injection h with h1
      injection h1 with hs hr
      subst hs
      subst hr
      rfl
  case oilTemp =>
    simp only [decodePID] at h ⊢
    unfold CalcEngineOilTemp at h ⊢
    rcases hB : byteAt frame 5 with _ | B
    · rw [hB] at h
      simp at h
    · rw [hB] at h
      simp only [Option.some_bind] at h ⊢
      injection h with h1
      injection h1 with hs hr
      subst hs
      subst hr
      rfl
  case batteryIBS =>
    simp only [decodePID] at h ⊢
    unfold CalcBatteryIBS at h ⊢
    rcases hA : byteAt frame 4 with _ | A
    · rw [hA] at h
      simp at h
    · rw [hA] at h
      simp only [Option.some_bind] at h ⊢
      injection h with h1
      injection h1 with hs hr
      subst hs
      subst hr
      rfl
  case battery =>
    simp only [decodePID] at h ⊢
    unfold CalcBattery at h ⊢
    rcases hB : byteAt frame 5 with _ | B
    · rw [hB] at h
      simp at h
    · rw [hB] at h
      simp only [Option.some_bind] at h ⊢
      injection h with h1
      injection h1 with hs hr
      subst hs
      subst hr
      rfl
  case atmosphericPressure =>
    simp only [decodePID] at h ⊢
    unfold CalcAtmosphericPressure at h ⊢
    rcases hA : byteAt frame 4 with _ | A
    · rw [hA] at h
      simp at h
    · rw [hA] at h
      rcases hB : byteAt frame 5 with _ | B
      · rw [hB] at h
        simp at h
      · rw [hB] at h
        simp only [Option.some_bind] at h ⊢
        injection h with h1
        injection h1 with hs hr
        subst hs
        subst hr
        rfl
  case boostPressure =>
    simp only [decodePID] at h ⊢
    unfold CalcBoostPressure at h ⊢
    rcases hA : byteAt frame 4 with _ | A
    · rw [hA] at h
      simp at h
    · rw [hA] at h
      rcases hB : byteAt frame 5 with _ | B
      · rw [hB] at h
        simp at h
      · rw [hB] at h
        simp only [Option.some_bind] at h ⊢
        injection h with h1
        injection h1 with hs hr
        subst hs
        subst hr
        rfl
  case externalTemp =>
    simp only [decodePID] at h ⊢
    unfold CalcExternalTemp at h ⊢
    rcases hA : byteAt frame 4 with _ | A
    · rw [hA] at h
      simp at h
    · rw [hA] at h
      simp only [Option.some_bind] at h ⊢
      injection h with h1
      injection h1 with hs hr
      subst hs
      subst hr
      rfl

/-- Witness for C8: the gear decoder, first called from a state whose gear
cache holds `3`, decodes Reverse; called again from the updated state it
returns the identical result and state. -/
theorem decodePID_idempotent_witness :
    decodePID PID.gear { initState with g_Gear := -1 } [0, 0, 0, 0, 0x10, 0] =
      some ({ initState with g_Gear := -1 }, -1) :=
  decodePID_idempotent PID.gear { initState with g_Gear := 3 } [0, 0, 0, 0, 0x10, 0]
    { initState with g_Gear := -1 } (-1) (by decide)

/-- Claim C9 (amended): both temperature formatters display the same
Fahrenheit conversion of their Celsius value, namely the truncation toward
zero of `c * 9/5 + 32 + 0.5`; this agrees with the spec's round-half-up
floor idiom `floor(c * 9/5 + 32 + 0.5)` for every `c ≥ -18` (in particular
for every oil-temperature value), but not for the colder external
temperatures, where the `int32_t` conversion truncates toward zero instead
of flooring. -/
theorem Fahrenheit_display_policy (s : OBD2State) (c : Int) (hc : -18 ≤ c) :
    (PrintEngineOilTemp s).2 = FahrenheitDisplay s.g_EngineOilTemp ∧
    (PrintExternalTemp s).2 = FahrenheitDisplay s.g_ExternalTemp ∧
    FahrenheitDisplay c = roundHalfUpFahrenheit c := by
  refine ⟨rfl, rfl, ?_⟩
  unfold FahrenheitDisplay roundHalfUpFahrenheit
  rw [Int.tdiv_eq_ediv (by omega) (by omega), Int.fdiv_eq_ediv _ (by omega)]

/-- Witness for C9 (amended) at `c = 25`: both conversions give `77`. -/
theorem Fahrenheit_display_policy_witness :
    (-18 : Int) ≤ 25 ∧ FahrenheitDisplay 25 = roundHalfUpFahrenheit 25 :=
  ⟨by decide, (Fahrenheit_display_policy initState 25 (by decide)).2.2⟩

/-- Counterexample to C9 as stated: the external temperature `c = -40`
(decoded from `A = 0`) is displayed as `-39` Fahrenheit by the code, while
the round-half-up floor idiom `floor(-40 * 9/5 + 32 + 0.5) = floor(-39.5)`
gives `-40`. -/
theorem Fahrenheit_neg40_display :
    CalcExternalTemp initState [0, 0, 0, 0, 0, 0] =
      some ({ initState with g_ExternalTemp := -40 }, -40) ∧
    PrintExternalTemp { initState with g_ExternalTemp := -40 } = (-40, -39) ∧
    roundHalfUpFahrenheit (-40) = -40 := by
  refine ⟨by decide, by decide, by decide⟩

/-- Claim C10 (amended): on any byte frame of length at least 6, each
decoder updates exactly its own cached global, leaving the other seven
untouched, and returns the value it stored — except `CalcBattery`, which
stores the f32 voltage in `g_Battery` but returns its `int32_t`
truncation. -/
theorem Calc_state_effects (s : OBD2State) (frame : List Nat)
    (hlen : 6 ≤ frame.length) (hb : IsByteFrame frame) :
    (∃ r, CalcEngineRPM s frame = some ({ s with g_EngineRPM := r }, r)) ∧
    (∃ r, CalcGear s frame = some ({ s with g_Gear := r }, r)) ∧
    (∃ r, CalcEngineOilTemp s frame = some ({ s with g_EngineOilTemp := r }, r)) ∧
    (∃ r, CalcBatteryIBS s frame = some ({ s with g_BatteryIBS := r }, r)) ∧
    (∃ v, CalcBattery s frame = some ({ s with g_Battery := v }, Int.floor v)) ∧
    (∃ r, CalcAtmosphericPressure s frame = some ({ s with g_AtmosphericPressure := r }, r)) ∧
    (∃ r, CalcBoostPressure s frame = some ({ s with g_BoostPressure := r }, r)) ∧
    (∃ r, CalcExternalTemp s frame = some ({ s with g_ExternalTemp := r }, r)) :=
  ⟨⟨_, CalcEngineRPM_run s frame hlen hb⟩,
   ⟨_, CalcGear_run s frame (by omega) hb⟩,
   ⟨_, CalcEngineOilTemp_run s frame hlen hb⟩,
   ⟨_, CalcBatteryIBS_run s frame (by omega) hb⟩,
   ⟨_, CalcBattery_run s frame hlen hb⟩,
   ⟨_, CalcAtmosphericPressure_run s frame hlen hb⟩,
   ⟨_, CalcBoostPressure_run s frame hlen hb⟩,
   ⟨_, CalcExternalTemp_run s frame (by omega) hb⟩⟩

/-- Witness for C10 (amended) at the spec's example frame: `CalcEngineRPM`
writes only `g_EngineRPM` and returns that stored value. -/
theorem Calc_state_effects_witness :
    6 ≤ ([0, 0, 0, 0, 0x1A, 0xF4] : List Nat).length ∧
    ∃ r, CalcEngineRPM initState [0, 0, 0, 0, 0x1A, 0xF4] =
      some ({ initState with g_EngineRPM := r }, r) :=
  ⟨by decide,
    (Calc_state_effects initState [0, 0, 0, 0, 0x1A, 0xF4] (by decide) (by decide)).1⟩

/-- Counterexample to C10 as stated: `CalcBattery` on the frame with
`frame[5] = 5` stores `0.5` in its cached global yet returns `0`, so it
does not return exactly the value it stored. -/
theorem CalcBattery_return_ne_stored :
    CalcBattery initState [0, 0, 0, 0, 0, 5] =
      some ({ initState with g_Battery := 1 / 2 }, 0) ∧ ¬ ((0 : Rat) = 1 / 2) := by
  constructor
  · rw [CalcBattery_run initState [0, 0, 0, 0, 0, 5] (by decide) (by decide)]
    simp only [List.getD_cons_succ, List.getD_cons_zero]
    norm_num
  · norm_num
